import Mathlib

/-!
Shallow embedding of the TCM clip monitor (src/clip.py): a polling loop that
fetches recent clips for a broadcaster from an upstream HTTP API, deduplicates
them against an in-memory set of already-sent clip ids, and posts a webhook
notification for each new clip.

Network effects are modelled by passing the outcome of each HTTP request
explicitly (an oracle environment).  Python exceptions that escape a function
are modelled with `Except PyError`.  Python truthiness of optional strings
(None and the empty string are falsy) is modelled by `pyTruthy`.
-/

/-- A Python exception escaping one of the embedded functions.  The source
raises `UnboundLocalError` when an except-branch reads the local variable
`response` before any assignment to it has run (the request call itself threw,
so `response` was never bound). -/
inductive PyError where
  | unboundLocal
deriving DecidableEq, Repr

/-- One clip record as returned by the clips endpoint: the fields the source
reads (clip.id, clip.url, clip.title). -/
structure Clip where
  id : String
  url : String
  title : String
deriving DecidableEq, Repr

/-- Python truthiness of an optional string: `None` and `""` are falsy. -/
def pyTruthy (o : Option String) : Bool :=
  !(o.getD "").isEmpty

/-- Left-pad the decimal rendering of `n` with zeros to width `w`
(Python `%0wd`). -/
def padNum (w n : Nat) : String :=
  let s := toString n
  String.mk (List.replicate (w - s.length) '0') ++ s

/-- Gregorian calendar date from a count of days since 1970-01-01
(proleptic Gregorian, as used by Python `datetime`): returns
(year, month, day). -/
def civilFromDays (days : Nat) : Nat × Nat × Nat :=
  let z := days + 719468
  let era := z / 146097
  let doe := z % 146097
  let yoe := (doe - doe / 1460 + doe / 36524 - doe / 146097) / 365
  let y := yoe + era * 400
  let doy := doe - (365 * yoe + yoe / 4 - yoe / 100)
  let mp := (5 * doy + 2) / 153
  let d := doy - (153 * mp + 2) / 5 + 1
  let m := if mp < 10 then mp + 3 else mp - 9
  (if m ≤ 2 then y + 1 else y, m, d)

/-- The date-and-time part of Python `datetime.isoformat` down to seconds, for
an instant given in microseconds since the epoch: `YYYY-MM-DDTHH:MM:SS`. -/
def isoDateTimeSec (t : Nat) : String :=
  let days := t / 86400000000
  let rem := t % 86400000000
  let ymd := civilFromDays days
  padNum 4 ymd.1 ++ "-" ++ padNum 2 ymd.2.1 ++ "-" ++ padNum 2 ymd.2.2 ++ "T" ++
    padNum 2 (rem / 3600000000) ++ ":" ++ padNum 2 (rem / 60000000 % 60) ++ ":" ++
    padNum 2 (rem / 1000000 % 60)

/-- The fractional-seconds part of Python `datetime.isoformat`: empty when the
microsecond component is zero, otherwise a dot followed by six digits. -/
def isoFrac (t : Nat) : String :=
  if t % 1000000 = 0 then "" else "." ++ padNum 6 (t % 1000000)

/-- Python `datetime.isoformat("T")` on a naive UTC datetime given as
microseconds since the epoch. -/
def pyIsoformat (t : Nat) : String :=
  isoDateTimeSec t ++ isoFrac t

/-- Outcome of the token-endpoint POST in `get_twitch_access_token`.
`success tok` is a 2xx response whose parsed JSON body has `tok` as the value
of its access_token field when present (`none` when the field is missing);
`badJson` is a 2xx response whose body fails to parse (requests raises a
`JSONDecodeError`, a `RequestException`, with the response bound); `status c`
is an HTTP response carrying an error status `c` (400 ≤ c, so
`raise_for_status` raises and the truthiness of the bound response is false);
`transport` means the request call itself raised a `RequestException` before
any response existed. -/
inductive TokenResponse where
  | success (accessToken : Option String)
  | badJson
  | status (code : Nat)
  | transport
deriving DecidableEq, Repr

/-- Embedding of `get_twitch_access_token` (src/clip.py lines 25-49).  Input:
the current `access_token_cache` and the outcome of the POST (used only on a
cache miss).  Output: the value returned to the caller (or the escaping
exception) together with the new `access_token_cache`.  On a transport error
the except-branch reads the unbound local `response`, so `UnboundLocalError`
escapes; on an error status or a missing access_token field the function
returns None; on success it stores and returns the token. -/
def get_twitch_access_token (cache : Option String) (resp : TokenResponse) :
    Except PyError (Option String) × Option String :=
  if pyTruthy cache then (.ok cache, cache)
  else
    match resp with
    | .success (some tok) => (.ok (some tok), some tok)
    | .success none => (.ok none, cache)
    | .badJson => (.ok none, cache)
    | .status _ => (.ok none, cache)
    | .transport => (.error .unboundLocal, cache)

/-- Outcome of the users-endpoint GET in `get_broadcaster_id`.  In
`success dataField`, `dataField` is the value of the data field of the parsed
body when present (`none` when missing), and each list element is the value
of the id field of that element when present.  The other constructors are as
in `TokenResponse`. -/
inductive UsersResponse where
  | success (dataField : Option (List (Option String)))
  | badJson
  | status (code : Nat)
  | transport
deriving DecidableEq, Repr

/-- Embedding of `get_broadcaster_id` (src/clip.py lines 51-84).  Input: the
channel name, the access token, the current `broadcaster_id_cache` and the GET
outcome.  Output: returned value (or escaping exception) and the new cache.
A missing data field raises `KeyError` (caught), an empty data list is falsy
(logged, None), a missing id field on the first element raises `KeyError`
(caught); a transport error leaves `response` unbound and
`UnboundLocalError` escapes. -/
def get_broadcaster_id (_channel_name : String) (access_token : Option String)
    (cache : Option String) (resp : UsersResponse) :
    Except PyError (Option String) × Option String :=
  if pyTruthy cache then (.ok cache, cache)
  else if ¬ pyTruthy access_token then (.ok none, cache)
  else
    match resp with
    | .success none => (.ok none, cache)
    | .success (some []) => (.ok none, cache)
    | .success (some (none :: _)) => (.ok none, cache)
    | .success (some (some bid :: _)) => (.ok (some bid), some bid)
    | .badJson => (.ok none, cache)
    | .status _ => (.ok none, cache)
    | .transport => (.error .unboundLocal, cache)

/-- Outcome of a clips-endpoint GET in `get_recent_clips`.  In
`success dataField`, `dataField` is the value of the data field of the parsed
body when present (`none` when the key is absent, in which case
`data.get("data", [])` yields the empty list).  The other constructors are as
in `TokenResponse`; `status 401` triggers the token-refresh-and-retry branch
when it is the first response. -/
inductive ClipsResponse where
  | success (dataField : Option (List Clip))
  | badJson
  | status (code : Nat)
  | transport
deriving DecidableEq, Repr

/-- Oracle environment for one call of `get_recent_clips`: the current UTC
time in microseconds since the epoch (`datetime.datetime.utcnow()`), the
outcome of the first clips GET, the outcome of the token POST performed if the
first GET returned 401, and the outcome of the retried clips GET. -/
structure FetchEnv where
  now : Nat
  firstResponse : ClipsResponse
  refreshResponse : TokenResponse
  retryResponse : ClipsResponse
deriving DecidableEq, Repr

/-- Result of one call of `get_recent_clips`: the value returned to the caller
(or the escaping exception), the `access_token_cache` after the call, the
number of clips-endpoint GETs issued, and the query parameters sent with them
(`none` when the early truthiness guard returned before any request). -/
structure FetchResult where
  result : Except PyError (List Clip)
  cache : Option String
  clipRequests : Nat
  params : Option (List (String × String))
deriving Repr

/-- Embedding of `get_recent_clips` (src/clip.py lines 87-136).  The query
parameters carry the window start `now - lookback_minutes`, rendered by
`isoformat` plus a Z suffix, and `first=20`; only the window start is sent.
On a 401 first response the function clears the token cache, re-acquires a
token, and retries the GET once when a truthy token was obtained, else returns
the empty list; if the re-acquisition raises, the exception escapes (it is not
a `RequestException`).  A transport error on the first GET leaves `response`
unbound, and `UnboundLocalError` escapes; a transport error on the retry
finds `response` still bound to the falsy 401 response, so the function
returns the empty list.  Any other error status and any parse failure yield
the empty list. -/
def get_recent_clips (broadcaster_id : Option String)
    (access_token : Option String) (lookback_minutes : Nat) (cache : Option String)
    (env : FetchEnv) : FetchResult :=
  if ¬ pyTruthy access_token ∨ ¬ pyTruthy broadcaster_id then
    { result := .ok [], cache := cache, clipRequests := 0, params := none }
  else
    let started_at_str := pyIsoformat (env.now - lookback_minutes * 60000000) ++ "Z"
    let sentParams := [("broadcaster_id", broadcaster_id.getD ""),
                       ("started_at", started_at_str), ("first", "20")]
    match env.firstResponse with
    | .transport =>
      { result := .error .unboundLocal, cache := cache, clipRequests := 1,
        params := some sentParams }
    | .status c =>
      if c = 401 then
        match get_twitch_access_token none env.refreshResponse with
        | (.error e, cache1) =>
          { result := .error e, cache := cache1, clipRequests := 1,
            params := some sentParams }
        | (.ok newTok, cache1) =>
          if pyTruthy newTok then
            match env.retryResponse with
            | .success d =>
              { result := .ok (d.getD []), cache := cache1, clipRequests := 2,
                params := some sentParams }
            | .badJson =>
              { result := .ok [], cache := cache1, clipRequests := 2,
                params := some sentParams }
            | .status _ =>
              { result := .ok [], cache := cache1, clipRequests := 2,
                params := some sentParams }
            | .transport =>
              { result := .ok [], cache := cache1, clipRequests := 2,
                params := some sentParams }
          else
            { result := .ok [], cache := cache1, clipRequests := 1,
              params := some sentParams }
      else
        { result := .ok [], cache := cache, clipRequests := 1,
          params := some sentParams }
    | .success d =>
      { result := .ok (d.getD []), cache := cache, clipRequests := 1,
        params := some sentParams }
    | .badJson =>
      { result := .ok [], cache := cache, clipRequests := 1,
        params := some sentParams }

/-- Outcome of the webhook POST in `send_discord_notification`: a 2xx
response, an error status (`raise_for_status` raises, the bound response is
falsy, the function returns normally after logging), or a transport error
(the request call raised; the except-branch then reads the unbound local
`response` and `UnboundLocalError` escapes). -/
inductive WebhookResponse where
  | success
  | status (code : Nat)
  | transport
deriving DecidableEq, Repr

/-- Embedding of `send_discord_notification` (src/clip.py lines 139-150):
the formatted message content posted to the webhook, and the outcome seen by
the caller. -/
def send_discord_notification (_webhook_url : String) (clip_url : String)
    (clip_title : String) (channel_name : String) (resp : WebhookResponse) :
    String × Except PyError Unit :=
  let message := "🎬 New clip from **" ++ channel_name ++ "**!\n**" ++
    clip_title ++ "**\n" ++ clip_url
  match resp with
  | .success => (message, .ok ())
  | .status _ => (message, .ok ())
  | .transport => (message, .error .unboundLocal)

/-- The deduplication store `sent_clip_ids` (src/clip.py line 22): a Python
set of clip-id strings, modelled as a finite set. -/
abbrev DedupStore : Type := Finset String

/-- Python `sent_clip_ids.add(x)`. -/
def DedupStore.add (s : DedupStore) (x : String) : DedupStore :=
  insert x s

/-- Python membership test `x in sent_clip_ids` (the loop uses
`clip.id not in sent_clip_ids`). -/
def DedupStore.mem (s : DedupStore) (x : String) : Bool :=
  decide (x ∈ s)

/-- Result of processing the fetched clips of one polling cycle
(src/clip.py lines 196-204): the clips for which `send_discord_notification`
was invoked, in invocation order; the dedup store afterwards; and the
exception that escaped the for-loop, if any. -/
structure ProcessResult where
  notified : List Clip
  sent : DedupStore
  escaped : Option PyError

/-- Embedding of the per-clip for-loop of one polling cycle (src/clip.py
lines 196-204), already applied to `reversed(clips)`: each clip whose id is
not yet in the store is sent to `send_discord_notification` and then its id is
added to the store.  `notify` gives the webhook POST outcome for each clip.
When the notification call raises, the add for that clip never runs and the
exception aborts the rest of the loop (it propagates to the loop boundary);
earlier additions persist, because the store is a mutated global. -/
def processClips (webhook_url channel_name : String)
    (notify : Clip → WebhookResponse) :
    List Clip → DedupStore → ProcessResult
  | [], sent => { notified := [], sent := sent, escaped := none }
  | c :: rest, sent =>
    if sent.mem c.id then processClips webhook_url channel_name notify rest sent
    else
      match (send_discord_notification webhook_url c.url c.title channel_name
          (notify c)).2 with
      | .error e => { notified := [c], sent := sent, escaped := some e }
      | .ok _ =>
        let r := processClips webhook_url channel_name notify rest (sent.add c.id)
        { notified := c :: r.notified, sent := r.sent, escaped := r.escaped }

/-- Oracle environment for one iteration of the while-loop: the token POST
outcome (used only when the token cache is empty at the top of the cycle), the
clips-fetch environment, and the webhook outcome for each clip. -/
structure CycleEnv where
  tokenResp : TokenResponse
  fetchEnv : FetchEnv
  notify : Clip → WebhookResponse

/-- Observable outcome of one iteration of the while-loop: the clips for
which the Notifier was invoked, whether an exception reached the
try-boundary of the loop (it is logged there and the loop continues), and
whether the cycle was skipped because no token was obtainable. -/
structure CycleReport where
  notified : List Clip
  raised : Bool
  skipped : Bool
  clipRequests : Nat

/-- Mutable process state read and written by one cycle: the token cache and
the dedup store. -/
structure LoopState where
  tokenCache : Option String
  sent : DedupStore

/-- Embedding of one iteration of the while-loop body (src/clip.py lines
176-212): obtain a token (skip the cycle when it is falsy), fetch recent
clips, and process `reversed(clips)`; any exception raised inside the body is
caught at the loop boundary (`except Exception`), logged, and the loop then
proceeds to the interval sleep. -/
def runCycle (webhook_url channel_name : String) (broadcaster_id : Option String)
    (lookback : Nat) (env : CycleEnv) (st : LoopState) : CycleReport × LoopState :=
  match get_twitch_access_token st.tokenCache env.tokenResp with
  | (.error _, cache1) =>
    ({ notified := [], raised := true, skipped := false, clipRequests := 0 },
     { tokenCache := cache1, sent := st.sent })
  | (.ok t, cache1) =>
    if ¬ pyTruthy t then
      ({ notified := [], raised := false, skipped := true, clipRequests := 0 },
       { tokenCache := cache1, sent := st.sent })
    else
      let fr := get_recent_clips broadcaster_id t lookback cache1 env.fetchEnv
      match fr.result with
      | .error _ =>
        ({ notified := [], raised := true, skipped := false,
           clipRequests := fr.clipRequests },
         { tokenCache := fr.cache, sent := st.sent })
      | .ok clips =>
        let pr := processClips webhook_url channel_name env.notify
          clips.reverse st.sent
        ({ notified := pr.notified, raised := pr.escaped.isSome, skipped := false,
           clipRequests := fr.clipRequests },
         { tokenCache := fr.cache, sent := pr.sent })

/-- Embedding of the while-loop (src/clip.py lines 176-212) run for the given
finite list of cycle environments: the real loop is infinite, so this models
its first `envs.length` iterations.  Every cycle produces a report and the
loop always continues to the next cycle, whatever happened in the body. -/
def runLoop (webhook_url channel_name : String) (broadcaster_id : Option String)
    (lookback : Nat) :
    List CycleEnv → LoopState → List CycleReport × LoopState
  | [], st => ([], st)
  | env :: rest, st =>
    let (r, st1) := runCycle webhook_url channel_name broadcaster_id lookback env st
    let (rs, st2) := runLoop webhook_url channel_name broadcaster_id lookback rest st1
    (r :: rs, st2)

/-- Oracle environment for one run of `main`: the startup token POST, the
users-endpoint GET, the priming fetch, and the per-cycle environments. -/
structure MainEnv where
  initTokenResp : TokenResponse
  usersResp : UsersResponse
  primingFetchEnv : FetchEnv
  cycles : List CycleEnv

/-- Observable outcome of one run of `main`: whether an exception escaped
`main` itself (only the startup and priming calls can do that), whether a
critical startup-failure message was logged before returning, whether the
while-loop was entered, the dedup store seeded by priming, the number of
clips-endpoint GETs issued over the whole run, the per-cycle reports, and the
final state. -/
structure MainResult where
  crashed : Bool
  criticalLog : Bool
  enteredLoop : Bool
  primedIds : DedupStore
  clipRequests : Nat
  cycleReports : List CycleReport
  finalState : LoopState

/-- Embedding of `main` (src/clip.py lines 153-212).  Startup: acquire a
token and resolve the broadcaster id; a falsy result of either logs a
critical message and returns without entering the loop (and without any clips
fetch); an exception raised by either escapes `main`.  Priming: one clips
fetch whose ids are all added to the dedup store with no notification (an
exception here also escapes `main`, since the priming fetch is outside the
try).  Then the while-loop runs. -/
def mainRun (webhook_url channel_name : String) (lookback : Nat)
    (env : MainEnv) : MainResult :=
  match get_twitch_access_token none env.initTokenResp with
  | (.error _, cache1) =>
    { crashed := true, criticalLog := false, enteredLoop := false,
      primedIds := (∅ : Finset String), clipRequests := 0, cycleReports := [],
      finalState := { tokenCache := cache1, sent := (∅ : Finset String) } }
  | (.ok token, cache1) =>
    if ¬ pyTruthy token then
      { crashed := false, criticalLog := true, enteredLoop := false,
        primedIds := (∅ : Finset String), clipRequests := 0, cycleReports := [],
        finalState := { tokenCache := cache1, sent := (∅ : Finset String) } }
    else
      match get_broadcaster_id channel_name token none env.usersResp with
      | (.error _, _) =>
        { crashed := true, criticalLog := false, enteredLoop := false,
          primedIds := (∅ : Finset String), clipRequests := 0, cycleReports := [],
          finalState := { tokenCache := cache1, sent := (∅ : Finset String) } }
      | (.ok bid, _) =>
        if ¬ pyTruthy bid then
          { crashed := false, criticalLog := true, enteredLoop := false,
            primedIds := (∅ : Finset String), clipRequests := 0, cycleReports := [],
            finalState := { tokenCache := cache1, sent := (∅ : Finset String) } }
        else
          let pf := get_recent_clips bid token lookback cache1 env.primingFetchEnv
          match pf.result with
          | .error _ =>
            { crashed := true, criticalLog := false, enteredLoop := false,
              primedIds := (∅ : Finset String), clipRequests := pf.clipRequests,
              cycleReports := [],
              finalState := { tokenCache := pf.cache, sent := (∅ : Finset String) } }
          | .ok initial_clips =>
            let sent0 : DedupStore :=
              initial_clips.foldl (fun s c => DedupStore.add s c.id)
                (∅ : Finset String)
            let (reports, stFinal) := runLoop webhook_url channel_name bid lookback
              env.cycles { tokenCache := pf.cache, sent := sent0 }
            { crashed := false, criticalLog := false, enteredLoop := true,
              primedIds := sent0,
              clipRequests := pf.clipRequests +
                (reports.map CycleReport.clipRequests).sum,
              cycleReports := reports, finalState := stFinal }

/-- Rendering of the window start as the spec describes the started_at query
parameter, stated from the words of the spec for comparison with what the
code builds: an RFC3339 UTC timestamp with second precision and a Z suffix. -/
def specStartedAtSecondPrecision (t : Nat) : String :=
  isoDateTimeSec t ++ "Z"

/-- A concrete clip used in closed scenarios. -/
def clipX : Clip := ⟨"x", "ux", "tx"⟩

/-- A second concrete clip used in closed scenarios. -/
def clipY : Clip := ⟨"y", "uy", "ty"⟩

/-- Concrete cycle environment: the fetch returns clipY then clipX (newest
first, so clipX is processed first after the reversal), the webhook POST for
clipX suffers a transport error (so `send_discord_notification` raises
`UnboundLocalError`), and the POST for clipY would succeed. -/
def raisingNotifyCycleEnv : CycleEnv :=
  { tokenResp := .success none,
    fetchEnv := { now := 0, firstResponse := .success (some [clipY, clipX]),
                  refreshResponse := .success none, retryResponse := .success none },
    notify := fun c => if c.id = "x" then .transport else .success }

/-- Concrete cycle environment: the fetch returns only clipX and the webhook
POST for it comes back with an HTTP error status, which
`send_discord_notification` logs and swallows. -/
def httpFailNotifyCycleEnv : CycleEnv :=
  { tokenResp := .success none,
    fetchEnv := { now := 0, firstResponse := .success (some [clipX]),
                  refreshResponse := .success none, retryResponse := .success none },
    notify := fun _ => .status 500 }

/-- Every clip for which the Notifier is invoked during the per-clip loop
comes from the fetched list and had an id outside the dedup store the cycle
started with. -/
theorem processClips_notified_sources (w ch : String)
    (notify : Clip → WebhookResponse) :
    ∀ (L : List Clip) (sent : DedupStore) (x : Clip),
      x ∈ (processClips w ch notify L sent).notified →
        x ∈ L ∧ sent.mem x.id = false := by
  intro L
  induction L with
  | nil =>
    intro sent x hx
    simp [processClips] at hx
  | cons c rest ih =>
    intro sent x hx
    rw [processClips] at hx
    by_cases hmem : sent.mem c.id = true
    · rw [if_pos hmem] at hx
      obtain ⟨h1, h2⟩ := ih sent x hx
      exact ⟨List.mem_cons_of_mem _ h1, h2⟩
    · rw [if_neg hmem] at hx
      rw [Bool.not_eq_true] at hmem
      cases hnc : notify c with
      | transport =>
        simp only [hnc, send_discord_notification, List.mem_singleton] at hx
        rw [hx]
        exact ⟨List.mem_cons_self c rest, hmem⟩
      | success =>
        simp only [hnc, send_discord_notification, List.mem_cons] at hx
        rcases hx with hx | hx
        · rw [hx]
          exact ⟨List.mem_cons_self c rest, hmem⟩
        · obtain ⟨h1, h2⟩ := ih (sent.add c.id) x hx
          refine ⟨List.mem_cons_of_mem _ h1, ?_⟩
          simp only [DedupStore.mem, DedupStore.add, decide_eq_false_iff_not,
            Finset.mem_insert, not_or] at h2 ⊢
          exact h2.2
      | status code =>
        simp only [hnc, send_discord_notification, List.mem_cons] at hx
        rcases hx with hx | hx
        · rw [hx]
          exact ⟨List.mem_cons_self c rest, hmem⟩
        · obtain ⟨h1, h2⟩ := ih (sent.add c.id) x hx
          refine ⟨List.mem_cons_of_mem _ h1, ?_⟩
          simp only [DedupStore.mem, DedupStore.add, decide_eq_false_iff_not,
            Finset.mem_insert, not_or] at h2 ⊢
          exact h2.2

/-- When no webhook POST of the cycle suffers a transport error (so the
Notifier never raises), every fetched clip that is new and has a distinct id
is delivered, in the order of the processed list, and no exception reaches
the loop boundary. -/
theorem processClips_no_transport (w ch : String)
    (notify : Clip → WebhookResponse) :
    ∀ (L : List Clip) (sent : DedupStore),
      (∀ x ∈ L, notify x ≠ WebhookResponse.transport) →
      (∀ x ∈ L, sent.mem x.id = false) →
      (L.map Clip.id).Nodup →
      (processClips w ch notify L sent).notified = L ∧
        (processClips w ch notify L sent).escaped = none := by
  intro L
  induction L with
  | nil =>
    intro sent _ _ _
    simp [processClips]
  | cons c rest ih =>
    intro sent hok hnew hnd
    have hcnew : sent.mem c.id = false := hnew c (List.mem_cons_self c rest)
    rw [processClips, if_neg (by simp [hcnew])]
    have hrest : (processClips w ch notify rest (sent.add c.id)).notified = rest ∧
        (processClips w ch notify rest (sent.add c.id)).escaped = none := by
      refine ih (sent.add c.id) (fun x hx => hok x (List.mem_cons_of_mem _ hx))
        (fun x hx => ?_) (List.Nodup.of_cons (by simpa using hnd))
      have hxid : x.id ≠ c.id := by
        intro hcontra
        have hcmap : c.id ∈ rest.map Clip.id := by
          rw [← hcontra]
          exact List.mem_map_of_mem Clip.id hx
        simp only [List.map_cons, List.nodup_cons] at hnd
        exact hnd.1 hcmap
      have hxnew : sent.mem x.id = false := hnew x (List.mem_cons_of_mem _ hx)
      simp only [DedupStore.mem, DedupStore.add, decide_eq_false_iff_not,
        Finset.mem_insert, not_or] at hxnew ⊢
      exact ⟨hxid, hxnew⟩
    cases hnc : notify c with
    | transport => exact absurd hnc (hok c (List.mem_cons_self c rest))
    | success => simp [send_discord_notification, hrest.1, hrest.2]
    | status code => simp [send_discord_notification, hrest.1, hrest.2]

/-- The while-loop produces one report per cycle environment: whatever a
cycle did (including raising an error that is caught at the loop boundary),
the loop proceeds to the next cycle. -/
theorem runLoop_length (w ch : String) (bid : Option String) (lb : Nat) :
    ∀ (envs : List CycleEnv) (st : LoopState),
      (runLoop w ch bid lb envs st).1.length = envs.length := by
  intro envs
  induction envs with
  | nil => intro st; rfl
  | cons e rest ih =>
    intro st
    simp [runLoop, ih]

/-- One cycle whose token cache holds a truthy token and whose clips GET
succeeds reduces to the per-clip processing of the reversed fetch result. -/
theorem runCycle_fetch_success (w ch bid tok : String) (lb : Nat)
    (tr : TokenResponse) (fe : FetchEnv) (notify : Clip → WebhookResponse)
    (sent : DedupStore) (clips : List Clip)
    (htok : pyTruthy (some tok) = true) (hbid : pyTruthy (some bid) = true)
    (hf : fe.firstResponse = ClipsResponse.success (some clips)) :
    runCycle w ch (some bid) lb
        { tokenResp := tr, fetchEnv := fe, notify := notify }
        { tokenCache := some tok, sent := sent } =
      ({ notified := (processClips w ch notify clips.reverse sent).notified,
         raised := (processClips w ch notify clips.reverse sent).escaped.isSome,
         skipped := false, clipRequests := 1 },
       { tokenCache := some tok,
         sent := (processClips w ch notify clips.reverse sent).sent }) := by
  unfold runCycle get_twitch_access_token get_recent_clips
  simp [htok, hbid, hf]

/-- Python None is falsy. -/
theorem pyTruthy_none : pyTruthy none = false := rfl

/-- A run of `main` whose startup token POST and channel lookup succeed with
truthy values and whose priming fetch succeeds reduces to: seed the dedup
store with the priming ids, then run the loop. -/
theorem mainRun_startup_success (w ch tok bid : String) (lb : Nat)
    (pfe : FetchEnv) (cycles : List CycleEnv) (primingClips : List Clip)
    (htok : pyTruthy (some tok) = true) (hbid : pyTruthy (some bid) = true)
    (hpf : pfe.firstResponse = ClipsResponse.success (some primingClips)) :
    mainRun w ch lb
        { initTokenResp := .success (some tok),
          usersResp := .success (some [some bid]),
          primingFetchEnv := pfe, cycles := cycles } =
      { crashed := false, criticalLog := false, enteredLoop := true,
        primedIds := primingClips.foldl (fun s c => DedupStore.add s c.id)
          (∅ : Finset String),
        clipRequests := 1 +
          ((runLoop w ch (some bid) lb cycles
              { tokenCache := some tok,
                sent := primingClips.foldl (fun s c => DedupStore.add s c.id)
                  (∅ : Finset String) }).1.map CycleReport.clipRequests).sum,
        cycleReports := (runLoop w ch (some bid) lb cycles
          { tokenCache := some tok,
            sent := primingClips.foldl (fun s c => DedupStore.add s c.id)
              (∅ : Finset String) }).1,
        finalState := (runLoop w ch (some bid) lb cycles
          { tokenCache := some tok,
            sent := primingClips.foldl (fun s c => DedupStore.add s c.id)
              (∅ : Finset String) }).2 } := by
  unfold mainRun get_twitch_access_token get_broadcaster_id get_recent_clips
  simp [htok, hbid, hpf, pyTruthy_none]

/-- Claim C9: the Deduplication Store has pure set semantics — for every clip
id x and every store state, adding x twice yields the same membership state
as adding it once, and membership of x holds afterwards; adding an
already-present id is observably a no-op. -/
theorem dedup_add_idempotent (x : String) (s : DedupStore) :
    (s.add x).add x = s.add x ∧ (s.add x).mem x = true := by
  constructor
  · simp [DedupStore.add]
  · simp [DedupStore.mem, DedupStore.add]

/-- Claim C10: when a clips request succeeds with a well-formed JSON body
that lacks the data field, `get_recent_clips` returns the empty sequence
rather than failing — both when the first GET is such a response and when the
retried GET after a 401 is. -/
theorem fetch_missing_data_field_empty (bid tok : String) (lb : Nat)
    (cache : Option String) (N : Nat) (rr : TokenResponse) (rt : ClipsResponse)
    (newTok : String)
    (hb : pyTruthy (some bid) = true) (ht : pyTruthy (some tok) = true)
    (hn : pyTruthy (some newTok) = true) :
    (get_recent_clips (some bid) (some tok) lb cache
        { now := N, firstResponse := .success none, refreshResponse := rr,
          retryResponse := rt }).result = .ok [] ∧
    (get_recent_clips (some bid) (some tok) lb cache
        { now := N, firstResponse := .status 401,
          refreshResponse := .success (some newTok),
          retryResponse := .success none }).result = .ok [] := by
  constructor
  · unfold get_recent_clips
    simp [hb, ht]
  · unfold get_recent_clips get_twitch_access_token
    simp [hb, ht, hn, pyTruthy_none]

/-- Witness for C10 at concrete inputs. -/
theorem fetch_missing_data_field_empty_witness :
    (get_recent_clips (some "b") (some "t") 10 none
        { now := 0, firstResponse := .success none,
          refreshResponse := .success none,
          retryResponse := .success none }).result = .ok [] ∧
    (get_recent_clips (some "b") (some "t") 10 none
        { now := 0, firstResponse := .status 401,
          refreshResponse := .success (some "n"),
          retryResponse := .success none }).result = .ok [] :=
  fetch_missing_data_field_empty "b" "t" 10 none 0 (.success none)
    (.success none) "n" (by decide) (by decide) (by decide)

/-- Claim C4 fails on the code: a transport error on the first clips GET
makes `get_recent_clips` raise `UnboundLocalError` to its caller (the
except-branch reads the unbound local `response`), instead of returning the
empty sequence; an HTTP error status and an unparseable 2xx body do return
the empty sequence. -/
theorem fetch_transport_unbound_response_eval :
    (get_recent_clips (some "b") (some "t") 10 none
        { now := 0, firstResponse := .transport, refreshResponse := .success none,
          retryResponse := .success none }).result =
      .error .unboundLocal ∧
    (get_recent_clips (some "b") (some "t") 10 none
        { now := 0, firstResponse := .status 500, refreshResponse := .success none,
          retryResponse := .success none }).result = .ok [] ∧
    (get_recent_clips (some "b") (some "t") 10 none
        { now := 0, firstResponse := .badJson, refreshResponse := .success none,
          retryResponse := .success none }).result = .ok [] :=
  ⟨rfl, rfl, rfl⟩

/-- Claim C3: on a 401 the Fetcher clears the cached token and re-acquires
one; when re-acquisition yields a token it retries exactly once (two clips
GETs) and returns the retried data; when re-acquisition returns no token
(HTTP error on the token POST) it returns the empty sequence after a single
clips GET, with the cache cleared.  The claim fails in one case: when
re-acquisition suffers a transport error, `get_twitch_access_token` raises
`UnboundLocalError` and the exception escapes `get_recent_clips` to the
caller instead of an empty sequence being returned. -/
theorem auth_retry_unbound_response_eval :
    (get_recent_clips (some "b") (some "t") 10 (some "old")
        { now := 0, firstResponse := .status 401, refreshResponse := .transport,
          retryResponse := .success (some [clipX]) }).result =
      .error .unboundLocal ∧
    (get_recent_clips (some "b") (some "t") 10 (some "old")
        { now := 0, firstResponse := .status 401, refreshResponse := .status 500,
          retryResponse := .success (some [clipX]) }).result = .ok [] ∧
    (get_recent_clips (some "b") (some "t") 10 (some "old")
        { now := 0, firstResponse := .status 401, refreshResponse := .status 500,
          retryResponse := .success (some [clipX]) }).clipRequests = 1 ∧
    (get_recent_clips (some "b") (some "t") 10 (some "old")
        { now := 0, firstResponse := .status 401, refreshResponse := .status 500,
          retryResponse := .success (some [clipX]) }).cache = none ∧
    (get_recent_clips (some "b") (some "t") 10 (some "old")
        { now := 0, firstResponse := .status 401,
          refreshResponse := .success (some "newtok"),
          retryResponse := .success (some [clipX]) }).result = .ok [clipX] ∧
    (get_recent_clips (some "b") (some "t") 10 (some "old")
        { now := 0, firstResponse := .status 401,
          refreshResponse := .success (some "newtok"),
          retryResponse := .success (some [clipX]) }).clipRequests = 2 ∧
    (get_recent_clips (some "b") (some "t") 10 (some "old")
        { now := 0, firstResponse := .status 401,
          refreshResponse := .success (some "newtok"),
          retryResponse := .success (some [clipX]) }).cache = some "newtok" :=
  ⟨rfl, rfl, rfl, rfl, rfl, rfl, rfl⟩

/-- Claim C5: on an HTTP error status from the webhook,
`send_discord_notification` returns normally and the loop still marks the
clip as sent (at-most-once).  The claim fails on a transport error: the
except-branch reads the unbound local `response`, `UnboundLocalError`
escapes to the loop, and the clip id is then not added to the dedup set. -/
theorem notify_transport_unbound_response_eval :
    (send_discord_notification "w" "u" "t" "ch" WebhookResponse.transport).2 =
      .error .unboundLocal ∧
    (send_discord_notification "w" "u" "t" "ch" (WebhookResponse.status 500)).2 =
      .ok () ∧
    (runCycle "w" "ch" (some "bid") 10 httpFailNotifyCycleEnv
        { tokenCache := some "tok", sent := ∅ }).1.notified = [clipX] ∧
    (runCycle "w" "ch" (some "bid") 10 httpFailNotifyCycleEnv
        { tokenCache := some "tok", sent := ∅ }).2.sent.mem clipX.id = true ∧
    (runCycle "w" "ch" (some "bid") 10 raisingNotifyCycleEnv
        { tokenCache := some "tok", sent := ∅ }).1.raised = true ∧
    (runCycle "w" "ch" (some "bid") 10 raisingNotifyCycleEnv
        { tokenCache := some "tok", sent := ∅ }).2.sent.mem clipX.id = false :=
  ⟨rfl, rfl, by decide, by decide, by decide, by decide⟩

/-- A string starting with a dot is not empty. -/
theorem dot_append_ne_empty (s : String) : ("." ++ s) ≠ "" := by
  intro h
  have h2 := congrArg String.length h
  simp [String.length_append] at h2
  exact absurd h2.1 (by decide)

/-- Claim C7: when the Initializing phase fails — the token acquisition
returns a falsy token, or channel resolution returns a falsy id (for example
zero matches) — `main` logs a critical message and returns without entering
the polling loop; no clips request, no diff and no notification happens in
that run. -/
theorem fatal_startup (w ch : String) (lb : Nat) (env : MainEnv)
    (h : (∃ t c1, get_twitch_access_token none env.initTokenResp =
            (Except.ok t, c1) ∧ pyTruthy t = false) ∨
         (∃ t c1, get_twitch_access_token none env.initTokenResp =
            (Except.ok t, c1) ∧ pyTruthy t = true ∧
            ∃ b c2, get_broadcaster_id ch t none env.usersResp =
              (Except.ok b, c2) ∧ pyTruthy b = false)) :
    (mainRun w ch lb env).criticalLog = true ∧
    (mainRun w ch lb env).enteredLoop = false ∧
    (mainRun w ch lb env).clipRequests = 0 ∧
    (mainRun w ch lb env).cycleReports = [] := by
  unfold mainRun
  rcases h with ⟨t, c1, heq, hfal⟩ | ⟨t, c1, heq, htru, b, c2, heqb, hbfal⟩
  · rw [heq]
    simp [hfal]
  · rw [heq]
    simp [htru, heqb, hbfal]

/-- Witness for C7: channel resolution finds zero matches, so the run logs a
critical message, performs no clips request and never enters the loop. -/
theorem fatal_startup_witness :
    (mainRun "w" "ch" 10
        { initTokenResp := .success (some "tok"),
          usersResp := .success (some []),
          primingFetchEnv := ⟨0, .success none, .success none, .success none⟩,
          cycles := [] }).criticalLog = true ∧
    (mainRun "w" "ch" 10
        { initTokenResp := .success (some "tok"),
          usersResp := .success (some []),
          primingFetchEnv := ⟨0, .success none, .success none, .success none⟩,
          cycles := [] }).enteredLoop = false ∧
    (mainRun "w" "ch" 10
        { initTokenResp := .success (some "tok"),
          usersResp := .success (some []),
          primingFetchEnv := ⟨0, .success none, .success none, .success none⟩,
          cycles := [] }).clipRequests = 0 ∧
    (mainRun "w" "ch" 10
        { initTokenResp := .success (some "tok"),
          usersResp := .success (some []),
          primingFetchEnv := ⟨0, .success none, .success none, .success none⟩,
          cycles := [] }).cycleReports = [] :=
  fatal_startup "w" "ch" 10 _
    (Or.inr ⟨some "tok", some "tok", rfl, by decide, none, none, rfl, rfl⟩)

/-- Claim C8 (amended): for every fetch that passes the truthiness guard, the
Clip Fetcher computes the trailing window starting at now minus the lookback
and sends exactly three query parameters — the broadcaster id, started_at
carrying the ISO-8601 rendering of the window start with a Z suffix, and
first=20 — with no end-of-window parameter.  The started_at value has second
precision exactly when the microsecond component of the current time is
zero, and microsecond precision otherwise. -/
theorem started_at_window_format (bid tok : String) (lb : Nat)
    (cache : Option String) (env : FetchEnv)
    (hb : pyTruthy (some bid) = true) (ht : pyTruthy (some tok) = true)
    (hlb : lb * 60000000 ≤ env.now) :
    (get_recent_clips (some bid) (some tok) lb cache env).params =
      some [("broadcaster_id", bid),
            ("started_at",
              isoDateTimeSec (env.now - lb * 60000000) ++
                isoFrac (env.now - lb * 60000000) ++ "Z"),
            ("first", "20")] ∧
    (isoFrac (env.now - lb * 60000000) = "" ↔ env.now % 1000000 = 0) := by
  constructor
  · rcases env with ⟨N, fr, rr, rt⟩
    unfold get_recent_clips
    rw [if_neg (by simp [hb, ht])]
    cases fr with
    | success d => simp [pyIsoformat]
    | badJson => simp [pyIsoformat]
    | transport => simp [pyIsoformat]
    | status c =>
      by_cases h401 : c = 401
      · rcases hga : get_twitch_access_token none rr with ⟨res, cc⟩
        cases res with
        | error e => simp [h401, hga, pyIsoformat]
        | ok newTok =>
          by_cases hnt : pyTruthy newTok = true
          · cases rt <;> simp [h401, hga, hnt, pyIsoformat]
          · rw [Bool.not_eq_true] at hnt
            simp [h401, hga, hnt, pyIsoformat]
      · simp [h401, pyIsoformat]
  · have h6 : (env.now - lb * 60000000) % 1000000 = env.now % 1000000 := by
      omega
    unfold isoFrac
    rw [h6]
    by_cases hz : env.now % 1000000 = 0
    · simp [hz]
    · simp only [hz, if_false, iff_false]
      exact fun hcon => absurd hcon (dot_append_ne_empty _)

/-- Witness for C8 at a concrete fetch whose current time has a zero
microsecond component. -/
theorem started_at_window_format_witness :
    (get_recent_clips (some "b") (some "t") 10 none
        ⟨1698400800000000, .success (some []), .success none, .success none⟩).params =
      some [("broadcaster_id", "b"),
            ("started_at",
              isoDateTimeSec (1698400800000000 - 10 * 60000000) ++
                isoFrac (1698400800000000 - 10 * 60000000) ++ "Z"),
            ("first", "20")] ∧
    (isoFrac (1698400800000000 - 10 * 60000000) = "" ↔
      1698400800000000 % 1000000 = 0) :=
  started_at_window_format "b" "t" 10 none
    ⟨1698400800000000, .success (some []), .success none, .success none⟩
    (by decide) (by decide) (by decide)

/-- Claim C8 is false as stated: at a current time with microsecond
component 500000 (here 2023-10-27T10:00:00.500000Z) the started_at value the
code sends carries microsecond precision, and differs from the
second-precision rendering of the window start that the claim describes. -/
theorem started_at_not_second_precision_cex :
    (get_recent_clips (some "b") (some "t") 10 none
        ⟨1698400800500000, .success (some []), .success none, .success none⟩).params =
      some [("broadcaster_id", "b"),
            ("started_at", "2023-10-27T09:50:00.500000Z"), ("first", "20")] ∧
    specStartedAtSecondPrecision (1698400800500000 - 10 * 60000000) =
      "2023-10-27T09:50:00Z" ∧
    "2023-10-27T09:50:00.500000Z" ≠ "2023-10-27T09:50:00Z" :=
  ⟨by decide, by decide, by decide⟩

/-- Claim C2: in a polling cycle the loop delivers the new clips oldest-first
by reversing the newest-first fetch result: for a fetch result c3, c2, c1
(newest first) of all-new clips with distinct ids, and a Notifier that does
not raise, the Notifier is invoked in the order c1, c2, c3. -/
theorem chronological_delivery (w ch tok bid : String) (lb N : Nat)
    (tr : TokenResponse) (c1 c2 c3 : Clip) (sent : DedupStore)
    (notify : Clip → WebhookResponse)
    (htok : pyTruthy (some tok) = true) (hbid : pyTruthy (some bid) = true)
    (hok : ∀ x ∈ [c3, c2, c1], notify x ≠ WebhookResponse.transport)
    (hnew : ∀ x ∈ [c3, c2, c1], sent.mem x.id = false)
    (hnd : (List.map Clip.id [c3, c2, c1]).Nodup) :
    (runCycle w ch (some bid) lb
        ⟨tr, ⟨N, .success (some [c3, c2, c1]), .success none, .success none⟩,
         notify⟩
        { tokenCache := some tok, sent := sent }).1.notified = [c1, c2, c3] := by
  rw [runCycle_fetch_success w ch bid tok lb tr _ notify sent [c3, c2, c1]
    htok hbid rfl]
  have hrev : ([c3, c2, c1] : List Clip).reverse = [c1, c2, c3] := rfl
  show (processClips w ch notify ([c3, c2, c1] : List Clip).reverse sent).notified
    = [c1, c2, c3]
  rw [hrev]
  refine (processClips_no_transport w ch notify [c1, c2, c3] sent ?_ ?_ ?_).1
  · intro x hx
    refine hok x ?_
    simp only [List.mem_cons, List.not_mem_nil, or_false] at hx ⊢
    tauto
  · intro x hx
    refine hnew x ?_
    simp only [List.mem_cons, List.not_mem_nil, or_false] at hx ⊢
    tauto
  · simp only [List.map_cons, List.map_nil, List.nodup_cons, List.mem_cons,
      List.not_mem_nil, or_false, List.nodup_nil] at hnd ⊢
    tauto

/-- Witness for C2 at three concrete clips. -/
theorem chronological_delivery_witness :
    (runCycle "w" "ch" (some "bid") 10
        ⟨.success none,
         ⟨0, .success (some [⟨"3", "u3", "t3"⟩, ⟨"2", "u2", "t2"⟩,
            ⟨"1", "u1", "t1"⟩]), .success none, .success none⟩,
         fun _ => .success⟩
        { tokenCache := some "tok", sent := ∅ }).1.notified =
      [⟨"1", "u1", "t1"⟩, ⟨"2", "u2", "t2"⟩, ⟨"3", "u3", "t3"⟩] :=
  chronological_delivery "w" "ch" "tok" "bid" 10 0 (.success none)
    ⟨"1", "u1", "t1"⟩ ⟨"2", "u2", "t2"⟩ ⟨"3", "u3", "t3"⟩ ∅ (fun _ => .success)
    (by decide) (by decide) (by decide) (by decide) (by decide)

/-- Claim C1: priming suppresses the backlog.  With a priming fetch returning
clips with ids a, b, c, the run seeds the dedup store with exactly those ids
and notifies nothing for them; in a later cycle fetching clips whose ids all
lie among a, b, c, d, every Notifier invocation is for a clip with id d. -/
theorem priming_suppresses_backlog (w ch tok bid : String) (lb N1 N2 : Nat)
    (a b c d : String) (pa pb pc : Clip) (l : List Clip)
    (notify : Clip → WebhookResponse)
    (htok : pyTruthy (some tok) = true) (hbid : pyTruthy (some bid) = true)
    (ha : pa.id = a) (hb : pb.id = b) (hc : pc.id = c)
    (hl : ∀ x ∈ l, x.id = a ∨ x.id = b ∨ x.id = c ∨ x.id = d) :
    (mainRun w ch lb
        { initTokenResp := .success (some tok),
          usersResp := .success (some [some bid]),
          primingFetchEnv := ⟨N1, .success (some [pa, pb, pc]), .success none,
            .success none⟩,
          cycles := [⟨.success none,
            ⟨N2, .success (some l), .success none, .success none⟩,
            notify⟩] }).primedIds = {a, b, c} ∧
    ∀ rep ∈ (mainRun w ch lb
        { initTokenResp := .success (some tok),
          usersResp := .success (some [some bid]),
          primingFetchEnv := ⟨N1, .success (some [pa, pb, pc]), .success none,
            .success none⟩,
          cycles := [⟨.success none,
            ⟨N2, .success (some l), .success none, .success none⟩,
            notify⟩] }).cycleReports,
      ∀ x ∈ rep.notified, x.id = d := by
  have hset : List.foldl (fun s cl => DedupStore.add s cl.id) (∅ : Finset String)
      [pa, pb, pc] = ({a, b, c} : Finset String) := by
    simp only [List.foldl]
    ext y
    simp only [DedupStore.add, Finset.mem_insert, Finset.not_mem_empty, or_false,
      Finset.mem_singleton, ha, hb, hc]
    tauto
  have hmain := mainRun_startup_success w ch tok bid lb
    ⟨N1, .success (some [pa, pb, pc]), .success none, .success none⟩
    [⟨.success none, ⟨N2, .success (some l), .success none, .success none⟩,
      notify⟩]
    [pa, pb, pc] htok hbid rfl
  rw [hmain]
  refine ⟨hset, ?_⟩
  intro rep hrep x hx
  have hrep2 : rep ∈ [(runCycle w ch (some bid) lb
      ⟨TokenResponse.success none,
        ⟨N2, ClipsResponse.success (some l), .success none, .success none⟩,
        notify⟩
      { tokenCache := some tok,
        sent := List.foldl (fun s cl => DedupStore.add s cl.id)
          (∅ : Finset String) [pa, pb, pc] }).1] := hrep
  rw [runCycle_fetch_success w ch bid tok lb (TokenResponse.success none)
    ⟨N2, ClipsResponse.success (some l), .success none, .success none⟩ notify
    (List.foldl (fun s cl => DedupStore.add s cl.id) (∅ : Finset String)
      [pa, pb, pc]) l htok hbid rfl] at hrep2
  simp only [List.mem_singleton] at hrep2
  subst hrep2
  have hx2 : x ∈ (processClips w ch notify l.reverse
      (List.foldl (fun s cl => DedupStore.add s cl.id) (∅ : Finset String)
        [pa, pb, pc])).notified := hx
  obtain ⟨hxl, hxnew⟩ := processClips_notified_sources w ch notify l.reverse _ x hx2
  have hxl2 : x ∈ l := by simpa using hxl
  rw [hset] at hxnew
  simp only [DedupStore.mem, decide_eq_false_iff_not, Finset.mem_insert,
    Finset.mem_singleton, not_or] at hxnew
  rcases hl x hxl2 with h | h | h | h
  · exact absurd h hxnew.1
  · exact absurd h hxnew.2.1
  · exact absurd h hxnew.2.2
  · exact h

/-- Witness for C1: priming ids a, b, c; the later cycle fetches d, c, b, a
and the only notification is for the clip with id d. -/
theorem priming_suppresses_backlog_witness :
    (mainRun "w" "ch" 10
        { initTokenResp := .success (some "tok"),
          usersResp := .success (some [some "bid"]),
          primingFetchEnv := ⟨0, .success (some [⟨"a", "ua", "ta"⟩,
            ⟨"b", "ub", "tb"⟩, ⟨"c", "uc", "tc"⟩]), .success none,
            .success none⟩,
          cycles := [⟨.success none,
            ⟨0, .success (some [⟨"d", "ud", "td"⟩, ⟨"c", "uc", "tc"⟩,
              ⟨"b", "ub", "tb"⟩, ⟨"a", "ua", "ta"⟩]), .success none,
              .success none⟩,
            fun _ => .success⟩] }).primedIds = {"a", "b", "c"} ∧
    ∀ rep ∈ (mainRun "w" "ch" 10
        { initTokenResp := .success (some "tok"),
          usersResp := .success (some [some "bid"]),
          primingFetchEnv := ⟨0, .success (some [⟨"a", "ua", "ta"⟩,
            ⟨"b", "ub", "tb"⟩, ⟨"c", "uc", "tc"⟩]), .success none,
            .success none⟩,
          cycles := [⟨.success none,
            ⟨0, .success (some [⟨"d", "ud", "td"⟩, ⟨"c", "uc", "tc"⟩,
              ⟨"b", "ub", "tb"⟩, ⟨"a", "ua", "ta"⟩]), .success none,
              .success none⟩,
            fun _ => .success⟩] }).cycleReports,
      ∀ x ∈ rep.notified, x.id = "d" :=
  priming_suppresses_backlog "w" "ch" "tok" "bid" 10 0 0 "a" "b" "c" "d"
    ⟨"a", "ua", "ta"⟩ ⟨"b", "ub", "tb"⟩ ⟨"c", "uc", "tc"⟩
    [⟨"d", "ud", "td"⟩, ⟨"c", "uc", "tc"⟩, ⟨"b", "ub", "tb"⟩,
      ⟨"a", "ua", "ta"⟩]
    (fun _ => .success) (by decide) (by decide) rfl rfl rfl (by decide)

/-- Claim C6 (amended): the loop yields one report per cycle whatever happens
inside a cycle body — any raised error is caught at the loop boundary and the
loop proceeds to the next cycle, so the process never terminates in steady
state — and in a cycle none of whose webhook POSTs raises (successes and
HTTP-error responses handled inside the Notifier), every new clip with a
distinct id is delivered and no exception reaches the loop boundary.  A
Notifier call that raises, however, aborts the remaining deliveries of its
cycle. -/
theorem cycle_isolation_amended :
    (∀ (w ch : String) (bid : Option String) (lb : Nat) (envs : List CycleEnv)
        (st : LoopState),
      (runLoop w ch bid lb envs st).1.length = envs.length) ∧
    (∀ (w ch : String) (notify : Clip → WebhookResponse) (L : List Clip)
        (sent : DedupStore),
      (∀ x ∈ L, notify x ≠ WebhookResponse.transport) →
      (∀ x ∈ L, sent.mem x.id = false) →
      (L.map Clip.id).Nodup →
      (processClips w ch notify L sent).notified = L ∧
        (processClips w ch notify L sent).escaped = none) :=
  ⟨runLoop_length, processClips_no_transport⟩

/-- Witness for C6 (amended): a two-cycle run (one cycle with a raising
Notifier) still yields two reports, and a cycle whose Notifier failure for
clipX is a handled HTTP error still delivers clipY. -/
theorem cycle_isolation_amended_witness :
    (runLoop "w" "ch" (some "bid") 10
        [raisingNotifyCycleEnv, httpFailNotifyCycleEnv]
        { tokenCache := some "tok", sent := ∅ }).1.length = 2 ∧
    (processClips "w" "ch"
        (fun cl => if cl.id = "x" then WebhookResponse.status 500
          else WebhookResponse.success) [clipX, clipY] ∅).notified
      = [clipX, clipY] ∧
    (processClips "w" "ch"
        (fun cl => if cl.id = "x" then WebhookResponse.status 500
          else WebhookResponse.success) [clipX, clipY] ∅).escaped = none :=
  ⟨cycle_isolation_amended.1 "w" "ch" (some "bid") 10
      [raisingNotifyCycleEnv, httpFailNotifyCycleEnv] ⟨some "tok", ∅⟩,
   (cycle_isolation_amended.2 "w" "ch"
      (fun cl => if cl.id = "x" then WebhookResponse.status 500
        else WebhookResponse.success) [clipX, clipY] ∅ (by decide) (by decide)
      (by decide)).1,
   (cycle_isolation_amended.2 "w" "ch"
      (fun cl => if cl.id = "x" then WebhookResponse.status 500
        else WebhookResponse.success) [clipX, clipY] ∅ (by decide) (by decide)
      (by decide)).2⟩

/-- Claim C6 is false as stated: the fetch returns clipY then clipX (newest
first, so clipX is processed first), the injected Notifier failure for clipX
raises, and clipY — new and discovered in the same cycle — is then not
delivered in that cycle, although the error is caught at the loop boundary. -/
theorem notifier_raise_blocks_same_cycle_delivery :
    (∅ : DedupStore).mem clipY.id = false ∧
    (runCycle "w" "ch" (some "bid") 10 raisingNotifyCycleEnv
        { tokenCache := some "tok", sent := ∅ }).1.notified = [clipX] ∧
    clipY ∉ (runCycle "w" "ch" (some "bid") 10 raisingNotifyCycleEnv
        { tokenCache := some "tok", sent := ∅ }).1.notified ∧
    (runCycle "w" "ch" (some "bid") 10 raisingNotifyCycleEnv
        { tokenCache := some "tok", sent := ∅ }).1.raised = true :=
  ⟨rfl, by decide, by decide, rfl⟩
